import Mathlib

/-!
Verification of the streaming provider-adapter layer of the obsidian-ollama
plugin. The definitions below are a shallow embedding of the TypeScript
sources: chunk splitting and record parsing are modelled over Lean strings,
the asynchronous control flow of each streaming call is modelled by an
explicit script (fetch outcome, list of decoded chunk texts, how the read
loop ends), and the `onToken` / `onComplete` / `onError` callback triad is
modelled as the list of emitted events.
-/

/-! ## JavaScript string primitives, modelled over `List Char` -/

/-- Model of JavaScript `String.prototype.split` with a one-character
separator: `splitChar c l` never returns the empty list. -/
def splitChar (sep : Char) : List Char → List (List Char)
  | [] => [[]]
  | c :: cs =>
    match splitChar sep cs with
    | [] => [[]]
    | y :: ys => if c = sep then [] :: y :: ys else (c :: y) :: ys

/-- JavaScript `chunk.split(sep)` for a one-character separator. -/
def jsSplit (sep : Char) (s : String) : List String :=
  (splitChar sep s.data).map String.mk

/-- Drop whitespace at both ends of a character list. -/
def trimL (l : List Char) : List Char :=
  ((l.dropWhile Char.isWhitespace).reverse.dropWhile Char.isWhitespace).reverse

/-- JavaScript `s.trim()`. -/
def jsTrim (s : String) : String := String.mk (trimL s.data)

/-- JavaScript `s.startsWith(p)`. -/
def jsStartsWith (p s : String) : Bool := p.data.isPrefixOf s.data

/-- Remove the first occurrence of `pat` from the list, as JavaScript
`s.replace(pat, "")` does for a string pattern. -/
def replaceFirstL (pat : List Char) : List Char → List Char
  | [] => []
  | c :: cs =>
    if pat.isPrefixOf (c :: cs) then (c :: cs).drop pat.length
    else c :: replaceFirstL pat cs

/-- JavaScript `s.replace(pat, "")` (first occurrence only). -/
def replaceFirst (pat s : String) : String :=
  String.mk (replaceFirstL pat.data s.data)

/-- JavaScript `s.includes(p)`: substring test. -/
def isInfixL (p : List Char) : List Char → Bool
  | [] => p.isEmpty
  | c :: cs => p.isPrefixOf (c :: cs) || isInfixL p cs

/-! ## Model of the host `JSON.parse`

Restricted to the value forms the wire formats of this plugin use:
objects, arrays, strings without escape sequences, and the two booleans.
Inputs outside this fragment make the parser return `none`, exactly as
`JSON.parse` throws on malformed text; all adapters catch that throw and
skip the record. -/

inductive Json where
  | str (s : String)
  | jbool (b : Bool)
  | obj (fields : List (String × Json))
  | arr (elems : List Json)

/-- Skip JSON whitespace. -/
def skipWs (cs : List Char) : List Char := cs.dropWhile Char.isWhitespace

/-- Characters of a JSON string literal after the opening quote, up to the
closing quote; escape sequences are outside the modelled fragment. -/
def strChars : List Char → Option (List Char × List Char)
  | [] => none
  | c :: cs =>
    if c = '\"' then some ([], cs)
    else if c = '\\' then none
    else
      match strChars cs with
      | some (s, r) => some (c :: s, r)
      | none => none

mutual

/-- Parse one JSON value; fuel makes recursion structurally terminating. -/
def parseVal : Nat → List Char → Option (Json × List Char)
  | 0, _ => none
  | Nat.succ fuel, cs =>
    match skipWs cs with
    | '\"' :: rest =>
      match strChars rest with
      | some (s, r) => some (Json.str (String.mk s), r)
      | none => none
    | 't' :: 'r' :: 'u' :: 'e' :: r => some (Json.jbool true, r)
    | 'f' :: 'a' :: 'l' :: 's' :: 'e' :: r => some (Json.jbool false, r)
    | '\x7b' :: rest => parseObjBody fuel rest
    | '[' :: rest => parseArrBody fuel rest
    | _ => none

/-- Parse the inside of an object after the opening brace. -/
def parseObjBody : Nat → List Char → Option (Json × List Char)
  | 0, _ => none
  | Nat.succ fuel, cs =>
    match skipWs cs with
    | '\x7d' :: r => some (Json.obj [], r)
    | _ =>
      match parseFields fuel cs with
      | some (fs, r) => some (Json.obj fs, r)
      | none => none

/-- Parse one or more `"key": value` fields up to the closing brace. -/
def parseFields : Nat → List Char → Option (List (String × Json) × List Char)
  | 0, _ => none
  | Nat.succ fuel, cs =>
    match skipWs cs with
    | '\"' :: rest =>
      match strChars rest with
      | none => none
      | some (k, r1) =>
        match skipWs r1 with
        | ':' :: r2 =>
          match parseVal fuel r2 with
          | none => none
          | some (v, r3) =>
            match skipWs r3 with
            | ',' :: r4 =>
              match parseFields fuel r4 with
              | some (fs, r5) => some ((String.mk k, v) :: fs, r5)
              | none => none
            | '\x7d' :: r4 => some ([(String.mk k, v)], r4)
            | _ => none
        | _ => none
    | _ => none

/-- Parse the inside of an array after the opening bracket. -/
def parseArrBody : Nat → List Char → Option (Json × List Char)
  | 0, _ => none
  | Nat.succ fuel, cs =>
    match skipWs cs with
    | ']' :: r => some (Json.arr [], r)
    | _ =>
      match parseElems fuel cs with
      | some (vs, r) => some (Json.arr vs, r)
      | none => none

/-- Parse one or more array elements up to the closing bracket. -/
def parseElems : Nat → List Char → Option (List Json × List Char)
  | 0, _ => none
  | Nat.succ fuel, cs =>
    match parseVal fuel cs with
    | none => none
    | some (v, r) =>
      match skipWs r with
      | ',' :: r2 =>
        match parseElems fuel r2 with
        | some (vs, r3) => some (v :: vs, r3)
        | none => none
      | ']' :: r2 => some ([v], r2)
      | _ => none

end

/-- Model of the host `JSON.parse`: `some` on success, `none` where
`JSON.parse` would throw. -/
def Json.parse (s : String) : Option Json :=
  match parseVal (s.data.length + 1) s.data with
  | some (j, r) => if skipWs r = [] then some j else none
  | none => none

/-- JavaScript property access `json.key` (and optional chaining `?.`):
`none` models `undefined`. Objects in the modelled records never repeat
keys, so first-match lookup is accurate. -/
def Json.getF : Json → String → Option Json
  | Json.obj fs, k => fs.lookup k
  | _, _ => none

/-- A JSON value used where a string is expected; non-strings model the
vendor records only through their string fields. -/
def Json.asString : Json → Option String
  | Json.str s => some s
  | _ => none

/-- JavaScript `a?.[0]`. -/
def Json.idx0 : Json → Option Json
  | Json.arr (x :: _) => some x
  | _ => none

/-- JavaScript truthiness of a JSON value (`if (json.done)`). -/
def Json.truthy : Json → Bool
  | Json.jbool b => b
  | Json.str s => s != ""
  | Json.obj _ => true
  | Json.arr _ => true

example : Json.parse "\x7b\"done\":true\x7d" = some (Json.obj [("done", Json.jbool true)]) := by rfl

example : Json.parse "\x7b\"respon" = none := by rfl

/-! ## Callback events and the shared newline-delimited streaming loop

`OllamaProvider.streamRequest`, `OpenAIProvider.streamChat`,
`GroqProvider.streamChat` and `AnthropicProvider.streamChat` are verbatim
copies of one read loop, differing only in how a chunk is filtered into
candidate lines and in how one line is turned into a token and a
done-flag. The loop is embedded once (`ndStream`) and each adapter
supplies its chunk filter and line handler, transcribed from its source. -/

/-- One callback invocation of the `AIStreamCallbacks` triad. -/
inductive Ev where
  | token (t : String)
  | complete (s : String)
  | error
deriving DecidableEq

/-- State of one streaming call: the accumulated `fullResponse`, the
callbacks fired so far, and whether the function already returned after
firing `onComplete`. -/
structure NdState where
  full : String
  evs : List Ev
  fin : Bool
deriving DecidableEq

/-- Process one candidate line, as the body of the `for (const line of
lines)` loop does: possibly emit a token (appending it to `fullResponse`),
then possibly fire `onComplete(fullResponse)` and return. -/
def stepLine (h : String → Option String × Bool) (st : NdState) (line : String) : NdState :=
  if st.fin then st
  else
    match h line with
    | (none, false) => st
    | (none, true) =>
      { st with evs := st.evs ++ [Ev.complete st.full], fin := true }
    | (some t, false) =>
      { st with full := st.full ++ t, evs := st.evs ++ [Ev.token t] }
    | (some t, true) =>
      { full := st.full ++ t
        evs := (st.evs ++ [Ev.token t]) ++ [Ev.complete (st.full ++ t)]
        fin := true }

/-- The `while (true) { read; split; for ... }` loop over the decoded
chunk texts. -/
def runChunks (split : String → List String) (h : String → Option String × Bool)
    (st : NdState) (chunks : List String) : NdState :=
  chunks.foldl (fun s c => (split c).foldl (stepLine h) s) st

/-- Outcome of the `fetch` await: success, non-ok status (the code throws
and `onError` fires), transport failure, missing body, or rejection with
`AbortError` because `cancel` ran before the response arrived. -/
inductive FetchResult where
  | ok
  | httpError
  | netError
  | noBody
  | abortedEarly
deriving DecidableEq

/-- How the read loop ends after the scripted chunks: the body is
exhausted, `cancel` aborts the reader (`AbortError`), or the transport
fails mid-stream. -/
inductive Ending where
  | eof
  | abort
  | readError
deriving DecidableEq

/-- The events delivered by one run of the shared streaming loop, given a
script of await outcomes. A thrown `AbortError` is answered with
`onComplete(fullResponse)`, any other throw with `onError`. -/
def ndStream (split : String → List String) (h : String → Option String × Bool)
    (fr : FetchResult) (reads : List String) (ending : Ending) : List Ev :=
  match fr with
  | FetchResult.httpError => [Ev.error]
  | FetchResult.netError => [Ev.error]
  | FetchResult.noBody => [Ev.error]
  | FetchResult.abortedEarly => [Ev.complete ""]
  | FetchResult.ok =>
    let st := runChunks split h { full := "", evs := [], fin := false } reads
    if st.fin then st.evs
    else
      match ending with
      | Ending.eof => st.evs ++ [Ev.complete st.full]
      | Ending.abort => st.evs ++ [Ev.complete st.full]
      | Ending.readError => st.evs ++ [Ev.error]

/-! ## OllamaProvider.streamRequest -/

/-- `chunk.split('\n').filter(line => line.trim())`. -/
def ollamaSplitChunk (chunk : String) : List String :=
  (jsSplit '\n' chunk).filter (fun l => jsTrim l != "")

/-- Body of the Ollama per-line loop: parse the line as JSON (skipping it
on failure), read `json.message?.content` (chat) or `json.response`
(generate) as the token, emit it when truthy, and finish when `json.done`
is truthy. -/
def ollamaLineHandler (isChat : Bool) (line : String) : Option String × Bool :=
  match Json.parse line with
  | none => (none, false)
  | some j =>
    let tokv : Option Json :=
      if isChat then (j.getF "message").bind (fun m => m.getF "content")
      else j.getF "response"
    let tok : Option String :=
      match tokv.bind Json.asString with
      | some t => if t = "" then none else some t
      | none => none
    let done : Bool :=
      match j.getF "done" with
      | some v => v.truthy
      | none => false
    (tok, done)

/-- `OllamaProvider.streamRequest` (serving both `generateStream` and
`chat`), as a function of the await script. -/
def ollamaStreamRequest (isChat : Bool) (fr : FetchResult)
    (reads : List String) (ending : Ending) : List Ev :=
  ndStream ollamaSplitChunk (ollamaLineHandler isChat) fr reads ending

/-! ## OpenAIProvider.streamChat -/

/-- `chunk.split('\n').filter(line => line.trim().startsWith('data:'))`. -/
def openaiSplitChunk (chunk : String) : List String :=
  (jsSplit '\n' chunk).filter (fun l => jsStartsWith "data:" (jsTrim l))

/-- Body of the OpenAI per-line loop: strip the `data: ` marker, finish on
the `[DONE]` sentinel, otherwise parse and emit
`json.choices?.[0]?.delta?.content` when truthy. -/
def openaiLineHandler (line : String) : Option String × Bool :=
  let data := jsTrim (replaceFirst "data: " line)
  if data = "[DONE]" then (none, true)
  else
    match Json.parse data with
    | none => (none, false)
    | some j =>
      let tok :=
        ((((j.getF "choices").bind Json.idx0).bind
            (fun c => c.getF "delta")).bind
          (fun d => d.getF "content")).bind Json.asString
      match tok with
      | some t => if t = "" then (none, false) else (some t, false)
      | none => (none, false)

/-- `OpenAIProvider.streamChat` as a function of the await script. -/
def openaiStreamChat (fr : FetchResult) (reads : List String) (ending : Ending) : List Ev :=
  ndStream openaiSplitChunk openaiLineHandler fr reads ending

/-! ## GroqProvider.streamChat (verbatim copy of the OpenAI loop) -/

/-- `chunk.split('\n').filter(line => line.trim().startsWith('data:'))`. -/
def groqSplitChunk (chunk : String) : List String :=
  (jsSplit '\n' chunk).filter (fun l => jsStartsWith "data:" (jsTrim l))

/-- Body of the Groq per-line loop, identical to the OpenAI one. -/
def groqLineHandler (line : String) : Option String × Bool :=
  let data := jsTrim (replaceFirst "data: " line)
  if data = "[DONE]" then (none, true)
  else
    match Json.parse data with
    | none => (none, false)
    | some j =>
      let tok :=
        ((((j.getF "choices").bind Json.idx0).bind
            (fun c => c.getF "delta")).bind
          (fun d => d.getF "content")).bind Json.asString
      match tok with
      | some t => if t = "" then (none, false) else (some t, false)
      | none => (none, false)

/-- `GroqProvider.streamChat` as a function of the await script. -/
def groqStreamChat (fr : FetchResult) (reads : List String) (ending : Ending) : List Ev :=
  ndStream groqSplitChunk groqLineHandler fr reads ending

/-! ## AnthropicProvider.streamChat -/

/-- `chunk.split('\n').filter(line => line.trim())`. -/
def anthropicSplitChunk (chunk : String) : List String :=
  (jsSplit '\n' chunk).filter (fun l => jsTrim l != "")

/-- Body of the Anthropic per-line loop: skip lines not starting with
`data:`, skip empty payloads and the `[DONE]` sentinel, emit
`json.delta.text` on `content_block_delta` events, finish on
`message_stop`. -/
def anthropicLineHandler (line : String) : Option String × Bool :=
  if jsStartsWith "data:" line then
    let data := jsTrim (replaceFirst "data: " line)
    if data = "" then (none, false)
    else if data = "[DONE]" then (none, false)
    else
      match Json.parse data with
      | none => (none, false)
      | some j =>
        let ty := (j.getF "type").bind Json.asString
        let tok :=
          if ty == some "content_block_delta" then
            match ((j.getF "delta").bind (fun d => d.getF "text")).bind Json.asString with
            | some t => if t = "" then none else some t
            | none => none
          else none
        (tok, ty == some "message_stop")
  else (none, false)

/-- `AnthropicProvider.streamChat` as a function of the await script. -/
def anthropicStreamChat (fr : FetchResult) (reads : List String) (ending : Ending) : List Ev :=
  ndStream anthropicSplitChunk anthropicLineHandler fr reads ending

/-! ## GeminiProvider.chat / GeminiProvider.generateStream

Both methods run the same streaming body (the source duplicates it
verbatim); it differs from the other four adapters: it keeps a carry-over
buffer across chunks, it does not accumulate tokens, it always calls
`onComplete("")`, it routes every throw (including a hypothetical
`AbortError`) to `onError`, and the `AbortController` it returns is never
passed to `fetch`. -/

/-- One trimmed line of the Gemini stream: parse `line.slice(6)` after a
`data: ` marker and extract `json.candidates?.[0]?.content?.parts?.[0]?.text`. -/
def geminiLineToken (line : String) : Option String :=
  let l := jsTrim line
  if jsStartsWith "data: " l then
    match Json.parse (String.mk (l.data.drop 6)) with
    | none => none
    | some j =>
      match (((((j.getF "candidates").bind Json.idx0).bind
            (fun c => c.getF "content")).bind
          (fun c => c.getF "parts")).bind Json.idx0).bind
          (fun p => (p.getF "text").bind Json.asString) with
      | some t => if t = "" then none else some t
      | none => none
  else none

/-- Decoder state of the Gemini loop: the carry-over buffer and the
callbacks fired so far. -/
structure GemState where
  buf : String
  evs : List Ev
deriving DecidableEq

/-- One iteration of the Gemini read loop: append the chunk to the
buffer, split on newlines, keep the last segment as the new buffer, and
emit a token for each complete line that carries one. -/
def geminiChunkStep (st : GemState) (chunk : String) : GemState :=
  let parts := jsSplit '\n' (st.buf ++ chunk)
  { buf := parts.getLastD ""
    evs := st.evs ++ (parts.dropLast.filterMap geminiLineToken).map Ev.token }

/-- Outcome of the Gemini `fetch` await. Its `AbortController` is not
passed to `fetch`, so no abort outcome exists for this adapter. -/
inductive GemFetch where
  | ok
  | httpError
  | netError
  | noBody
deriving DecidableEq

/-- How the Gemini read loop ends: body exhausted, or a mid-stream throw
(routed to `onError` by the outer catch). -/
inductive GemEnding where
  | eof
  | readError
deriving DecidableEq

/-- The shared streaming body of `GeminiProvider.chat` and
`GeminiProvider.generateStream`: missing key and all request failures fire
`onError`; a completed body always fires `onComplete("")`. -/
def geminiStreamBody (keySet : Bool) (fr : GemFetch)
    (reads : List String) (ending : GemEnding) : List Ev :=
  if keySet = false then [Ev.error]
  else
    match fr with
    | GemFetch.httpError => [Ev.error]
    | GemFetch.netError => [Ev.error]
    | GemFetch.noBody => [Ev.error]
    | GemFetch.ok =>
      let st := reads.foldl geminiChunkStep { buf := "", evs := [] }
      match ending with
      | GemEnding.eof => st.evs ++ [Ev.complete ""]
      | GemEnding.readError => st.evs ++ [Ev.error]

/-! ## The fetch call each streaming method issues

Only the presence of the abort wiring matters to the claims: the four
newline/SSE loops pass `signal: abortController.signal` to `fetch`; the
two Gemini methods create an `AbortController`, return it, and never
connect it to the request. -/

/-- The request options of one streaming `fetch` call. -/
structure FetchCall where
  method : String
  hasSignal : Bool
deriving DecidableEq

/-- `OllamaProvider.streamRequest` fetch options. -/
def ollamaStreamFetchCall : FetchCall := { method := "POST", hasSignal := true }

/-- `OpenAIProvider.streamChat` fetch options. -/
def openaiStreamFetchCall : FetchCall := { method := "POST", hasSignal := true }

/-- `GroqProvider.streamChat` fetch options. -/
def groqStreamFetchCall : FetchCall := { method := "POST", hasSignal := true }

/-- `AnthropicProvider.streamChat` fetch options. -/
def anthropicStreamFetchCall : FetchCall := { method := "POST", hasSignal := true }

/-- `GeminiProvider.chat` fetch options: no `signal` field. -/
def geminiChatFetchCall : FetchCall := { method := "POST", hasSignal := false }

/-- `GeminiProvider.generateStream` fetch options: no `signal` field. -/
def geminiGenerateStreamFetchCall : FetchCall := { method := "POST", hasSignal := false }

/-! Sanity scenarios transcribed from the observable behaviour of the
sources. -/

example :
    ollamaStreamRequest true FetchResult.ok
      ["\x7b\"message\":\x7b\"content\":\"Hel\"\x7d\x7d\n",
       "\x7b\"message\":\x7b\"content\":\"lo\"\x7d,\"done\":true\x7d\n"]
      Ending.eof
      = [Ev.token "Hel", Ev.token "lo", Ev.complete "Hello"] := by rfl

example :
    openaiStreamChat FetchResult.ok
      ["data: \x7b\"choices\":[\x7b\"delta\":\x7b\"content\":\"Hi\"\x7d\x7d]\x7d\n\n",
       "data: [DONE]\n\n"]
      Ending.eof
      = [Ev.token "Hi", Ev.complete "Hi"] := by rfl

example :
    anthropicStreamChat FetchResult.ok
      ["data: \x7b\"type\":\"content_block_delta\",\"delta\":\x7b\"text\":\"Hi\"\x7d\x7d\n",
       "data: \x7b\"type\":\"message_stop\"\x7d\n"]
      Ending.eof
      = [Ev.token "Hi", Ev.complete "Hi"] := by rfl

example :
    geminiStreamBody true GemFetch.ok
      ["data: \x7b\"candidates\":[\x7b\"content\":\x7b\"parts\":[\x7b\"text\":\"Hi\"\x7d]\x7d\x7d]\x7d\n\n"]
      GemEnding.eof
      = [Ev.token "Hi", Ev.complete ""] := by rfl

/-! ## Invariants of the shared streaming loop -/

/-- Concatenation, in delivery order, of the strings passed to `onToken`. -/
def toks : List Ev → String
  | [] => ""
  | Ev.token t :: r => t ++ toks r
  | Ev.complete _ :: r => toks r
  | Ev.error :: r => toks r

/-- Terminal callbacks (`onComplete` or `onError`), as opposed to
`onToken`. -/
def isTermEv : Ev → Bool
  | Ev.token _ => false
  | Ev.complete _ => true
  | Ev.error => true

/-- Number of terminal callbacks delivered. -/
def termCount (l : List Ev) : Nat := (l.filter isTermEv).length

theorem toks_append (a b : List Ev) : toks (a ++ b) = toks a ++ toks b := by
  induction a with
  | nil => simp [toks]
  | cons e r ih =>
    cases e <;> simp [toks, ih, String.append_assoc]

theorem termCount_append (a b : List Ev) :
    termCount (a ++ b) = termCount a + termCount b := by
  simp [termCount, List.filter_append]

theorem toks_single_token (t : String) : toks [Ev.token t] = t := by
  simp [toks]

theorem toks_single_complete (s : String) : toks [Ev.complete s] = "" := by
  simp [toks]

theorem toks_single_error : toks [Ev.error] = "" := by
  simp [toks]

theorem complete_not_mem_of_termCount_zero (l : List Ev) (h : termCount l = 0)
    (s : String) : Ev.complete s ∉ l := by
  intro hm
  have hf : l.filter isTermEv = [] := List.length_eq_zero.mp h
  have : Ev.complete s ∈ l.filter isTermEv := List.mem_filter.mpr ⟨hm, rfl⟩
  rw [hf] at this
  exact absurd this (List.not_mem_nil _)

theorem error_not_mem_of_termCount_zero (l : List Ev) (h : termCount l = 0) :
    Ev.error ∉ l := by
  intro hm
  have hf : l.filter isTermEv = [] := List.length_eq_zero.mp h
  have : Ev.error ∈ l.filter isTermEv := List.mem_filter.mpr ⟨hm, rfl⟩
  rw [hf] at this
  exact absurd this (List.not_mem_nil _)

/-- Invariant of the read loop state: before `onComplete` fires,
`fullResponse` is the concatenation of the emitted tokens and no terminal
callback has fired; afterwards the event list is some token emissions
followed by exactly the one `onComplete` carrying their concatenation. -/
def StOk (st : NdState) : Prop :=
  (st.fin = false → st.full = toks st.evs ∧ termCount st.evs = 0) ∧
  (st.fin = true →
    ∃ pre, st.evs = pre ++ [Ev.complete (toks pre)] ∧ termCount pre = 0)

theorem stOk_init : StOk { full := "", evs := [], fin := false } := by
  constructor
  · intro _
    exact ⟨rfl, rfl⟩
  · intro h
    exact absurd h (by simp)

theorem stepLine_ok (h : String → Option String × Bool) (st : NdState)
    (line : String) (H : StOk st) : StOk (stepLine h st line) := by
  by_cases hf : st.fin = true
  · simpa [stepLine, hf] using H
  · have hf' : st.fin = false := Bool.eq_false_iff.mpr hf
    obtain ⟨hfull, hcnt⟩ := H.1 hf'
    rcases hh : h line with ⟨tok, done⟩
    cases tok with
    | none =>
      cases done with
      | false =>
        simpa [stepLine, hf', hh] using H
      | true =>
        refine ⟨fun hc => ?_, fun _ => ?_⟩
        · simp [stepLine, hf', hh] at hc
        · refine ⟨st.evs, ?_, hcnt⟩
          simp [stepLine, hf', hh, hfull]
    | some t =>
      cases done with
      | false =>
        refine ⟨fun _ => ⟨?_, ?_⟩, fun hc => ?_⟩
        · simp [stepLine, hf', hh, toks_append, toks, hfull, String.append_empty]
        · have he : (stepLine h st line).evs = st.evs ++ [Ev.token t] := by
            simp [stepLine, hf', hh]
          rw [he, termCount_append, hcnt]
          rfl
        · simp [stepLine, hf', hh] at hc
      | true =>
        refine ⟨fun hc => ?_, fun _ => ?_⟩
        · simp [stepLine, hf', hh] at hc
        · refine ⟨st.evs ++ [Ev.token t], ?_, ?_⟩
          · simp [stepLine, hf', hh, toks_append, toks, hfull, String.append_empty]
          · rw [termCount_append, hcnt]
            rfl

theorem foldl_stepLine_ok (h : String → Option String × Bool) :
    ∀ (lines : List String) (st : NdState), StOk st →
      StOk (lines.foldl (stepLine h) st)
  | [], _, H => H
  | l :: ls, st, H =>
    foldl_stepLine_ok h ls (stepLine h st l) (stepLine_ok h st l H)

theorem runChunks_ok (split : String → List String)
    (h : String → Option String × Bool) :
    ∀ (chunks : List String) (st : NdState), StOk st →
      StOk (runChunks split h st chunks)
  | [], _, H => H
  | c :: cs, st, H =>
    runChunks_ok split h cs ((split c).foldl (stepLine h) st)
      (foldl_stepLine_ok h (split c) st H)

/-- Every run of the shared loop delivers exactly one terminal callback. -/
theorem ndStream_termCount (split : String → List String)
    (h : String → Option String × Bool) (fr : FetchResult)
    (reads : List String) (ending : Ending) :
    termCount (ndStream split h fr reads ending) = 1 := by
  cases fr
  case httpError => rfl
  case netError => rfl
  case noBody => rfl
  case abortedEarly => rfl
  case ok =>
    have H := runChunks_ok split h reads
      { full := "", evs := [], fin := false } stOk_init
    simp only [ndStream]
    set st := runChunks split h { full := "", evs := [], fin := false } reads with hst
    by_cases hf : st.fin = true
    · obtain ⟨pre, hevs, hcnt⟩ := H.2 hf
      rw [if_pos hf, hevs, termCount_append, hcnt]
      rfl
    · have hf' : st.fin = false := Bool.eq_false_iff.mpr hf
      obtain ⟨-, hcnt⟩ := H.1 hf'
      rw [if_neg hf]
      cases ending with
      | eof => rw [termCount_append, hcnt]; rfl
      | abort => rw [termCount_append, hcnt]; rfl
      | readError => rw [termCount_append, hcnt]; rfl

/-- Whatever string the shared loop passes to `onComplete` equals the
concatenation of all emitted tokens. -/
theorem ndStream_complete_eq_toks (split : String → List String)
    (h : String → Option String × Bool) (fr : FetchResult)
    (reads : List String) (ending : Ending) (s : String)
    (hm : Ev.complete s ∈ ndStream split h fr reads ending) :
    s = toks (ndStream split h fr reads ending) := by
  cases fr
  case httpError =>
    simp [ndStream] at hm
  case netError =>
    simp [ndStream] at hm
  case noBody =>
    simp [ndStream] at hm
  case abortedEarly =>
    simp [ndStream] at hm
    simp [ndStream, hm, toks]
  case ok =>
    have H := runChunks_ok split h reads
      { full := "", evs := [], fin := false } stOk_init
    simp only [ndStream] at hm ⊢
    set st := runChunks split h { full := "", evs := [], fin := false } reads with hst
    by_cases hf : st.fin = true
    · obtain ⟨pre, hevs, hcnt⟩ := H.2 hf
      rw [if_pos hf] at hm ⊢
      rw [hevs] at hm ⊢
      rcases List.mem_append.mp hm with hpre | hlast
      · exact absurd hpre (complete_not_mem_of_termCount_zero pre hcnt s)
      · have heq : Ev.complete s = Ev.complete (toks pre) := List.mem_singleton.mp hlast
        have hs : s = toks pre := by injection heq
        rw [hs, toks_append, toks_single_complete, String.append_empty]
    · have hf' : st.fin = false := Bool.eq_false_iff.mpr hf
      obtain ⟨hfull, hcnt⟩ := H.1 hf'
      rw [if_neg hf] at hm ⊢
      cases ending with
      | eof =>
        rcases List.mem_append.mp hm with hpre | hlast
        · exact absurd hpre (complete_not_mem_of_termCount_zero st.evs hcnt s)
        · have heq : Ev.complete s = Ev.complete st.full := List.mem_singleton.mp hlast
          have hs : s = st.full := by injection heq
          rw [hs, hfull, toks_append, toks_single_complete, String.append_empty]
      | abort =>
        rcases List.mem_append.mp hm with hpre | hlast
        · exact absurd hpre (complete_not_mem_of_termCount_zero st.evs hcnt s)
        · have heq : Ev.complete s = Ev.complete st.full := List.mem_singleton.mp hlast
          have hs : s = st.full := by injection heq
          rw [hs, hfull, toks_append, toks_single_complete, String.append_empty]
      | readError =>
        rcases List.mem_append.mp hm with hpre | hlast
        · exact absurd hpre (complete_not_mem_of_termCount_zero st.evs hcnt s)
        · simp at hlast

/-- A run whose script is cancelled (either before the response arrived
or during the read loop) fires no `onError` and ends with `onComplete`
carrying exactly the accumulated tokens. -/
theorem ndStream_cancelled (split : String → List String)
    (h : String → Option String × Bool) (fr : FetchResult)
    (reads : List String) (ending : Ending)
    (hc : fr = FetchResult.abortedEarly ∨ (fr = FetchResult.ok ∧ ending = Ending.abort)) :
    Ev.error ∉ ndStream split h fr reads ending ∧
      (ndStream split h fr reads ending).getLast?
        = some (Ev.complete (toks (ndStream split h fr reads ending))) := by
  rcases hc with hc | ⟨hfr, hend⟩
  · subst hc
    constructor
    · simp [ndStream]
    · simp [ndStream, toks]
  · subst hfr; subst hend
    have H := runChunks_ok split h reads
      { full := "", evs := [], fin := false } stOk_init
    simp only [ndStream]
    set st := runChunks split h { full := "", evs := [], fin := false } reads with hst
    by_cases hf : st.fin = true
    · obtain ⟨pre, hevs, hcnt⟩ := H.2 hf
      rw [if_pos hf, hevs]
      constructor
      · intro hm
        rcases List.mem_append.mp hm with hpre | hlast
        · exact absurd hpre (error_not_mem_of_termCount_zero pre hcnt)
        · simp at hlast
      · rw [List.getLast?_concat]
        rw [toks_append, toks_single_complete, String.append_empty]
    · have hf' : st.fin = false := Bool.eq_false_iff.mpr hf
      obtain ⟨hfull, hcnt⟩ := H.1 hf'
      rw [if_neg hf]
      constructor
      · intro hm
        rcases List.mem_append.mp hm with hpre | hlast
        · exact absurd hpre (error_not_mem_of_termCount_zero st.evs hcnt)
        · simp at hlast
      · rw [List.getLast?_concat]
        rw [toks_append, toks_single_complete, String.append_empty, hfull]

/-! ## Invariants of the Gemini streaming body -/

theorem termCount_tokens (l : List Ev) (h : ∀ e ∈ l, ∃ t, e = Ev.token t) :
    termCount l = 0 := by
  induction l with
  | nil => rfl
  | cons e r ih =>
    obtain ⟨t, ht⟩ := h e (List.mem_cons_self e r)
    subst ht
    have : termCount (Ev.token t :: r) = termCount r := by
      simp [termCount, List.filter, isTermEv]
    rw [this]
    exact ih (fun e he => h e (List.mem_cons_of_mem _ he))

theorem gem_foldl_tokens :
    ∀ (reads : List String) (st : GemState),
      (∀ e ∈ st.evs, ∃ t, e = Ev.token t) →
      ∀ e ∈ (reads.foldl geminiChunkStep st).evs, ∃ t, e = Ev.token t := by
  intro reads
  induction reads with
  | nil => intro st h; simpa using h
  | cons c cs ih =>
    intro st h
    refine ih (geminiChunkStep st c) ?_
    intro e he
    simp only [geminiChunkStep] at he
    rcases List.mem_append.mp he with hold | hnew
    · exact h e hold
    · obtain ⟨t, -, ht⟩ := List.mem_map.mp hnew
      exact ⟨t, ht.symm⟩

theorem geminiStreamBody_termCount (keySet : Bool) (fr : GemFetch)
    (reads : List String) (ending : GemEnding) :
    termCount (geminiStreamBody keySet fr reads ending) = 1 := by
  cases keySet
  case false => rfl
  case true =>
    cases fr
    case httpError => rfl
    case netError => rfl
    case noBody => rfl
    case ok =>
      have htoks := gem_foldl_tokens reads { buf := "", evs := [] }
        (by intro e he; simp at he)
      have hcnt : termCount (reads.foldl geminiChunkStep { buf := "", evs := [] }).evs = 0 :=
        termCount_tokens _ htoks
      cases ending with
      | eof =>
        show termCount ((reads.foldl geminiChunkStep { buf := "", evs := [] }).evs
          ++ [Ev.complete ""]) = 1
        rw [termCount_append, hcnt]
        rfl
      | readError =>
        show termCount ((reads.foldl geminiChunkStep { buf := "", evs := [] }).evs
          ++ [Ev.error]) = 1
        rw [termCount_append, hcnt]
        rfl

theorem geminiStreamBody_complete_empty (keySet : Bool) (fr : GemFetch)
    (reads : List String) (ending : GemEnding) (s : String)
    (hm : Ev.complete s ∈ geminiStreamBody keySet fr reads ending) :
    s = "" := by
  cases keySet
  case false => simp [geminiStreamBody] at hm
  case true =>
    cases fr
    case httpError => simp [geminiStreamBody] at hm
    case netError => simp [geminiStreamBody] at hm
    case noBody => simp [geminiStreamBody] at hm
    case ok =>
      have htoks := gem_foldl_tokens reads { buf := "", evs := [] }
        (by intro e he; simp at he)
      cases ending with
      | eof =>
        have hm' : Ev.complete s ∈
            (reads.foldl geminiChunkStep { buf := "", evs := [] }).evs
              ++ [Ev.complete ""] := hm
        rcases List.mem_append.mp hm' with hold | hlast
        · obtain ⟨t, ht⟩ := htoks _ hold
          exact absurd ht (by simp)
        · have heq : Ev.complete s = Ev.complete "" := List.mem_singleton.mp hlast
          injection heq
      | readError =>
        have hm' : Ev.complete s ∈
            (reads.foldl geminiChunkStep { buf := "", evs := [] }).evs
              ++ [Ev.error] := hm
        rcases List.mem_append.mp hm' with hold | hlast
        · obtain ⟨t, ht⟩ := htoks _ hold
          exact absurd ht (by simp)
        · simp at hlast

/-! ## ProviderManager: configuration, registry, availability metadata -/

/-- `ProviderConfig.ollama`. -/
structure OllamaCfg where
  enabled : Bool
  url : String
  defaultModel : String
deriving DecidableEq

/-- `ProviderConfig.openai` (the only hosted entry with a base URL). -/
structure OpenAICfg where
  enabled : Bool
  apiKey : String
  defaultModel : String
  baseUrl : Option String
deriving DecidableEq

/-- The shape shared by `ProviderConfig.anthropic`, `.groq` and `.gemini`. -/
structure HostedCfg where
  enabled : Bool
  apiKey : String
  defaultModel : String
deriving DecidableEq

/-- `ProviderConfig`. -/
structure ProviderConfig where
  ollama : OllamaCfg
  openai : OpenAICfg
  anthropic : HostedCfg
  groq : HostedCfg
  gemini : HostedCfg
deriving DecidableEq

/-- `ProviderManager.initializeProviders`, abstracted to the ids put into
the `providers` map: Ollama unconditionally, each hosted vendor only when
its API key is truthy (a non-empty string). -/
def initProviders (c : ProviderConfig) : List String :=
  ["ollama"]
    ++ (if c.openai.apiKey ≠ "" then ["openai"] else [])
    ++ (if c.anthropic.apiKey ≠ "" then ["anthropic"] else [])
    ++ (if c.groq.apiKey ≠ "" then ["groq"] else [])
    ++ (if c.gemini.apiKey ≠ "" then ["gemini"] else [])

/-- State of a `ProviderManager` instance. -/
structure ProviderManager where
  config : ProviderConfig
  providers : List String
  activeProviderId : String
deriving DecidableEq

/-- The `ProviderManager` constructor: store the config and run
`initializeProviders`. -/
def newProviderManager (c : ProviderConfig) : ProviderManager :=
  { config := c, providers := initProviders c, activeProviderId := "ollama" }

/-- `ProviderManager.updateConfig`: replace the config, clear the map
and run `initializeProviders` again. -/
def ProviderManager.updateConfig (m : ProviderManager) (c : ProviderConfig) : ProviderManager :=
  { m with config := c, providers := initProviders c }

/-- One entry of `ProviderManager.getProviderInfo`. -/
structure ProviderInfo where
  id : String
  name : String
  available : Bool
deriving DecidableEq

/-- `ProviderManager.getProviderInfo`: a hard-coded four-entry list; the
Gemini provider has no entry. -/
def getProviderInfo (c : ProviderConfig) : List ProviderInfo :=
  [ { id := "ollama", name := "🦙 Ollama (Local)",
      available := c.ollama.enabled },
    { id := "openai", name := "🤖 OpenAI (GPT)",
      available := c.openai.enabled && c.openai.apiKey != "" },
    { id := "anthropic", name := "🧠 Anthropic (Claude)",
      available := c.anthropic.enabled && c.anthropic.apiKey != "" },
    { id := "groq", name := "⚡ Groq (Fast)",
      available := c.groq.enabled && c.groq.apiKey != "" } ]

/-! ## isAvailable -/

/-- `OpenAIProvider.isAvailable`: `!!this.apiKey && this.apiKey.length > 0`. -/
def openaiIsAvailable (apiKey : String) : Bool :=
  apiKey != "" && apiKey.length > 0

/-- `AnthropicProvider.isAvailable`: `!!this.apiKey && this.apiKey.length > 0`. -/
def anthropicIsAvailable (apiKey : String) : Bool :=
  apiKey != "" && apiKey.length > 0

/-- `GroqProvider.isAvailable`: `!!this.apiKey && this.apiKey.length > 0`. -/
def groqIsAvailable (apiKey : String) : Bool :=
  apiKey != "" && apiKey.length > 0

/-- `GeminiProvider.isAvailable`: `!!this.apiKey`. -/
def geminiIsAvailable (apiKey : String) : Bool :=
  apiKey != ""

/-- Outcome of the `requestUrl` call in `OllamaProvider.isAvailable`:
either a status code, or a throw (unreachable endpoint). -/
inductive ReqResult where
  | ok (status : Nat)
  | failed
deriving DecidableEq

/-- `OllamaProvider.isAvailable`: `status === 200`, with every throw
caught and answered by `false`. -/
def ollamaIsAvailable (r : ReqResult) : Bool :=
  match r with
  | ReqResult.ok status => status == 200
  | ReqResult.failed => false

/-! ## getModels -/

/-- Outcome of the models `fetch` of the OpenAI/Groq adapters: transport
throw, non-ok status, or a parsed body whose `data` field is absent
(`none`) or a list of model ids. -/
inductive ModelsFetch where
  | netError
  | httpNotOk
  | ok (ids : Option (List String))
deriving DecidableEq

/-- `OpenAIProvider.getModels`: `[]` without a key; the default model as
fallback on a non-ok status, a missing `data` field, or a throw; else the
ids whose `id` includes `'gpt'`. -/
def openaiGetModels (apiKey defaultModel : String) (net : ModelsFetch) : List String :=
  if apiKey = "" then []
  else
    match net with
    | ModelsFetch.netError => [defaultModel]
    | ModelsFetch.httpNotOk => [defaultModel]
    | ModelsFetch.ok none => [defaultModel]
    | ModelsFetch.ok (some ids) => ids.filter (fun i => isInfixL "gpt".data i.data)

/-- `GroqProvider.getModels`: `[]` without a key; a static three-model
list when the fetch throws; the default model on a non-ok status or a
missing `data` field; else all ids. -/
def groqGetModels (apiKey defaultModel : String) (net : ModelsFetch) : List String :=
  if apiKey = "" then []
  else
    match net with
    | ModelsFetch.netError => ["llama2-70b-4096", "mixtral-8x7b-32768", "gemma-7b-it"]
    | ModelsFetch.httpNotOk => [defaultModel]
    | ModelsFetch.ok none => [defaultModel]
    | ModelsFetch.ok (some ids) => ids

/-- Outcome of the `requestUrl` call in `OllamaProvider.getModels`: a
throw (of `requestUrl` or of `JSON.parse`), or a parsed body whose
`models` field is absent (`none`) or a list of model names. -/
inductive OllamaModelsResult where
  | failed
  | ok (names : Option (List String))
deriving DecidableEq

/-- `OllamaProvider.getModels`: the default model on any throw;
`data.models?.map(m => m.name) || []` on success — an absent `models`
field yields the empty list. -/
def ollamaGetModels (defaultModel : String) (r : OllamaModelsResult) : List String :=
  match r with
  | OllamaModelsResult.failed => [defaultModel]
  | OllamaModelsResult.ok none => []
  | OllamaModelsResult.ok (some names) => names

/-- `AnthropicProvider.getModels`: a static list, no network call. -/
def anthropicGetModels : List String :=
  ["claude-3-opus-20240229", "claude-3-sonnet-20240229", "claude-3-haiku-20240307",
   "claude-2.1", "claude-2.0", "claude-instant-1.2"]

/-- `GeminiProvider.getModels`: a static list, no network call. -/
def geminiGetModels : List String :=
  ["gemini-pro", "gemini-1.5-pro", "gemini-1.5-flash"]

/-! ## Generation options and temperature defaulting -/

/-- `GenerateOptions`. Temperatures are modelled as exact rationals; only
the distinction between an absent value, zero and other values matters
here. -/
structure GenOptions where
  temperature : Option ℚ
  maxTokens : Option Nat
  systemPrompt : Option String
deriving DecidableEq

/-- JavaScript `x || d` on an optional number: `undefined` and the falsy
`0` both yield the default. -/
def jsOrNum (x : Option ℚ) (d : ℚ) : ℚ :=
  match x with
  | some v => if v = 0 then d else v
  | none => d

/-- JavaScript `x ?? d` on an optional number: only `undefined`/`null`
yields the default. -/
def jsNullish (x : Option ℚ) (d : ℚ) : ℚ :=
  match x with
  | some v => v
  | none => d

/-- Temperature field of the request bodies built by
`OllamaProvider.generate`, `generateStream` and `chat`: the field is
always present, with value `options?.temperature || 0.7`. -/
def ollamaRequestTemperature (o : Option GenOptions) : Option ℚ :=
  some (jsOrNum (o.bind GenOptions.temperature) (7 / 10))

/-- Temperature field of the request bodies built by
`OpenAIProvider.generate` and `streamChat`: the field is always present,
with value `options?.temperature || 0.7`. -/
def openaiRequestTemperature (o : Option GenOptions) : Option ℚ :=
  some (jsOrNum (o.bind GenOptions.temperature) (7 / 10))

/-- Temperature field of the request bodies built by
`GroqProvider.generate` and `streamChat`: the field is always present,
with value `options?.temperature || 0.7`. -/
def groqRequestTemperature (o : Option GenOptions) : Option ℚ :=
  some (jsOrNum (o.bind GenOptions.temperature) (7 / 10))

/-- Temperature field of the request bodies built by
`GeminiProvider.generate`, `generateStream` and `chat`: the field is
always present, with value `options?.temperature ?? 0.7`. -/
def geminiRequestTemperature (o : Option GenOptions) : Option ℚ :=
  some (jsNullish (o.bind GenOptions.temperature) (7 / 10))

/-- Temperature field of the request bodies built by
`AnthropicProvider.generate` and `streamChat`: neither body contains a
`temperature` key, whatever the options hold — the field is absent. -/
def anthropicRequestTemperature (_o : Option GenOptions) : Option ℚ :=
  none

/-! ## Helper lemmas shared by the claim theorems -/

theorem initProviders_spec (c : ProviderConfig) :
    "ollama" ∈ initProviders c ∧
    ("openai" ∈ initProviders c ↔ c.openai.apiKey ≠ "") ∧
    ("anthropic" ∈ initProviders c ↔ c.anthropic.apiKey ≠ "") ∧
    ("groq" ∈ initProviders c ↔ c.groq.apiKey ≠ "") ∧
    ("gemini" ∈ initProviders c ↔ c.gemini.apiKey ≠ "") := by
  unfold initProviders
  split_ifs with h1 h2 h3 h4 <;> simp_all

theorem ollamaLineHandler_skip (isChat : Bool) (line : String)
    (h : Json.parse line = none) : ollamaLineHandler isChat line = (none, false) := by
  simp [ollamaLineHandler, h]

theorem stepLine_skip (hnd : String → Option String × Bool) (st : NdState)
    (line : String) (h : hnd line = (none, false)) : stepLine hnd st line = st := by
  by_cases hf : st.fin = true <;> simp [stepLine, hf, h]

theorem foldl_skip_middle {α β : Type} (f : β → α → β) (bad : α)
    (hbad : ∀ st, f st bad = st) (pre post : List α) (st : β) :
    (pre ++ bad :: post).foldl f st = (pre ++ post).foldl f st := by
  rw [List.foldl_append, List.foldl_append, List.foldl_cons, hbad]

theorem geminiLineToken_skip (line : String)
    (h1 : jsStartsWith "data: " (jsTrim line) = true)
    (h2 : Json.parse (String.mk ((jsTrim line).data.drop 6)) = none) :
    geminiLineToken line = none := by
  simp [geminiLineToken, h1, h2]

theorem filterMap_skip_middle {α β : Type} (f : α → Option β) (bad : α)
    (hbad : f bad = none) (pre post : List α) :
    (pre ++ bad :: post).filterMap f = (pre ++ post).filterMap f := by
  simp [List.filterMap_append, List.filterMap_cons, hbad]

/-! ## Claim theorems -/

/-- C4: for every streaming call on every adapter and every script of
response-chunk, error and cancellation outcomes, exactly one of
`onComplete`/`onError` fires, exactly once. -/
theorem c4_exactly_one_terminal_callback :
    (∀ (isChat : Bool) (fr : FetchResult) (reads : List String) (ending : Ending),
      termCount (ollamaStreamRequest isChat fr reads ending) = 1) ∧
    (∀ (fr : FetchResult) (reads : List String) (ending : Ending),
      termCount (openaiStreamChat fr reads ending) = 1) ∧
    (∀ (fr : FetchResult) (reads : List String) (ending : Ending),
      termCount (groqStreamChat fr reads ending) = 1) ∧
    (∀ (fr : FetchResult) (reads : List String) (ending : Ending),
      termCount (anthropicStreamChat fr reads ending) = 1) ∧
    (∀ (keySet : Bool) (fr : GemFetch) (reads : List String) (ending : GemEnding),
      termCount (geminiStreamBody keySet fr reads ending) = 1) :=
  ⟨fun isChat => ndStream_termCount ollamaSplitChunk (ollamaLineHandler isChat),
   ndStream_termCount openaiSplitChunk openaiLineHandler,
   ndStream_termCount groqSplitChunk groqLineHandler,
   ndStream_termCount anthropicSplitChunk anthropicLineHandler,
   geminiStreamBody_termCount⟩

/-- C6: a record whose text fails to parse as JSON is skipped without
aborting the stream — the processed line sequence with the malformed
record removed yields the identical decoder state (Ollama loop) and the
identical token emissions (Gemini loop). -/
theorem c6_malformed_record_skipped :
    (∀ (isChat : Bool) (st : NdState) (pre post : List String) (bad : String),
      Json.parse bad = none →
      (pre ++ bad :: post).foldl (stepLine (ollamaLineHandler isChat)) st
        = (pre ++ post).foldl (stepLine (ollamaLineHandler isChat)) st) ∧
    (∀ (pre post : List String) (bad : String),
      jsStartsWith "data: " (jsTrim bad) = true →
      Json.parse (String.mk ((jsTrim bad).data.drop 6)) = none →
      (pre ++ bad :: post).filterMap geminiLineToken
        = (pre ++ post).filterMap geminiLineToken) := by
  constructor
  · intro isChat st pre post bad hbad
    exact foldl_skip_middle _ bad
      (fun st => stepLine_skip _ st bad (ollamaLineHandler_skip isChat bad hbad))
      pre post st
  · intro pre post bad h1 h2
    exact filterMap_skip_middle _ bad (geminiLineToken_skip bad h1 h2) pre post

/-- Witness for C6 at a concrete malformed record between valid ones. -/
theorem c6_malformed_record_skipped_witness :
    Json.parse "oops" = none ∧
    (["\x7b\"response\":\"A\"\x7d"] ++ "oops" :: ["\x7b\"response\":\"B\"\x7d"]).foldl
        (stepLine (ollamaLineHandler false)) { full := "", evs := [], fin := false }
      = (["\x7b\"response\":\"A\"\x7d"] ++ ["\x7b\"response\":\"B\"\x7d"]).foldl
        (stepLine (ollamaLineHandler false)) { full := "", evs := [], fin := false } :=
  ⟨rfl, c6_malformed_record_skipped.1 false { full := "", evs := [], fin := false }
    ["\x7b\"response\":\"A\"\x7d"] ["\x7b\"response\":\"B\"\x7d"] "oops" rfl⟩

/-- C7: after construction or any `updateConfig`, the registry holds a
hosted vendor's adapter iff that vendor's API key is a non-empty string,
and always holds the Ollama adapter. -/
theorem c7_registry_iff_credential :
    (∀ c : ProviderConfig,
      "ollama" ∈ (newProviderManager c).providers ∧
      ("openai" ∈ (newProviderManager c).providers ↔ c.openai.apiKey ≠ "") ∧
      ("anthropic" ∈ (newProviderManager c).providers ↔ c.anthropic.apiKey ≠ "") ∧
      ("groq" ∈ (newProviderManager c).providers ↔ c.groq.apiKey ≠ "") ∧
      ("gemini" ∈ (newProviderManager c).providers ↔ c.gemini.apiKey ≠ "")) ∧
    (∀ (m : ProviderManager) (c : ProviderConfig),
      "ollama" ∈ (m.updateConfig c).providers ∧
      ("openai" ∈ (m.updateConfig c).providers ↔ c.openai.apiKey ≠ "") ∧
      ("anthropic" ∈ (m.updateConfig c).providers ↔ c.anthropic.apiKey ≠ "") ∧
      ("groq" ∈ (m.updateConfig c).providers ↔ c.groq.apiKey ≠ "") ∧
      ("gemini" ∈ (m.updateConfig c).providers ↔ c.gemini.apiKey ≠ "")) :=
  ⟨fun c => initProviders_spec c, fun _ c => initProviders_spec c⟩

/-- C9: with no credential configured (empty API key; a throwing endpoint
probe for the local provider) every adapter's `isAvailable` returns
`false` — and, being total functions of the probe outcome, never throws. -/
theorem c9_unconfigured_is_unavailable :
    openaiIsAvailable "" = false ∧
    anthropicIsAvailable "" = false ∧
    groqIsAvailable "" = false ∧
    geminiIsAvailable "" = false ∧
    ollamaIsAvailable ReqResult.failed = false := by
  decide

/-- C10: `getProviderInfo` returns exactly the four entries ollama,
openai, anthropic, groq; the Gemini provider never appears in the
availability metadata even when its key is set and its adapter is in the
registry. -/
theorem c10_provider_info_omits_gemini (c : ProviderConfig) :
    (getProviderInfo c).map ProviderInfo.id = ["ollama", "openai", "anthropic", "groq"] ∧
    (getProviderInfo c).length = 4 ∧
    (∀ p ∈ getProviderInfo c, p.id ≠ "gemini") ∧
    (c.gemini.apiKey ≠ "" → "gemini" ∈ initProviders c) := by
  refine ⟨rfl, rfl, ?_, ?_⟩
  · intro p hp
    simp only [getProviderInfo, List.mem_cons, List.mem_singleton] at hp
    rcases hp with h | h | h | h | h
    · subst h; simp
    · subst h; simp
    · subst h; simp
    · subst h; simp
    · simp at h
  · intro h
    simp [initProviders, h]

/-- Witness for C10: a configuration whose Gemini key is set puts the
gemini adapter in the registry while `getProviderInfo` still omits it. -/
def c10cfg : ProviderConfig :=
  { ollama := { enabled := true, url := "http://localhost:11434", defaultModel := "llama2" }
    openai := { enabled := false, apiKey := "", defaultModel := "gpt-3.5-turbo", baseUrl := none }
    anthropic := { enabled := false, apiKey := "", defaultModel := "claude-3-haiku-20240307" }
    groq := { enabled := false, apiKey := "", defaultModel := "llama2-70b-4096" }
    gemini := { enabled := true, apiKey := "g-key", defaultModel := "gemini-1.5-pro" } }

theorem c10_provider_info_omits_gemini_witness :
    c10cfg.gemini.apiKey ≠ "" ∧ "gemini" ∈ initProviders c10cfg :=
  ⟨by decide, (c10_provider_info_omits_gemini c10cfg).2.2.2 (by decide)⟩

/-- One SSE chunk of the Gemini stream carrying the token `Hi`. -/
def geminiHiChunk : String :=
  "data: \x7b\"candidates\":[\x7b\"content\":\x7b\"parts\":[\x7b\"text\":\"Hi\"\x7d]\x7d\x7d]\x7d\n\n"

/-- C1 counterexample: a well-formed Gemini stream delivers the token
`Hi` but `onComplete` receives `""`, not the concatenation `Hi` of the
delivered tokens. -/
theorem c1_counterexample_gemini_completes_empty :
    geminiStreamBody true GemFetch.ok [geminiHiChunk] GemEnding.eof
        = [Ev.token "Hi", Ev.complete ""] ∧
      toks [Ev.token "Hi", Ev.complete ""] = "Hi" ∧ ("Hi" : String) ≠ "" :=
  ⟨rfl, rfl, by decide⟩

/-- C1 (amended): on the Ollama, OpenAI, Groq and Anthropic adapters the
string passed to `onComplete` equals the concatenation of all `onToken`
deltas in delivery order; the Gemini adapter always passes the empty
string to `onComplete`, whatever tokens were delivered. -/
theorem c1_token_accumulation :
    (∀ (isChat : Bool) (fr : FetchResult) (reads : List String) (ending : Ending) (s : String),
      Ev.complete s ∈ ollamaStreamRequest isChat fr reads ending →
      s = toks (ollamaStreamRequest isChat fr reads ending)) ∧
    (∀ (fr : FetchResult) (reads : List String) (ending : Ending) (s : String),
      Ev.complete s ∈ openaiStreamChat fr reads ending →
      s = toks (openaiStreamChat fr reads ending)) ∧
    (∀ (fr : FetchResult) (reads : List String) (ending : Ending) (s : String),
      Ev.complete s ∈ groqStreamChat fr reads ending →
      s = toks (groqStreamChat fr reads ending)) ∧
    (∀ (fr : FetchResult) (reads : List String) (ending : Ending) (s : String),
      Ev.complete s ∈ anthropicStreamChat fr reads ending →
      s = toks (anthropicStreamChat fr reads ending)) ∧
    (∀ (keySet : Bool) (fr : GemFetch) (reads : List String) (ending : GemEnding) (s : String),
      Ev.complete s ∈ geminiStreamBody keySet fr reads ending → s = "") :=
  ⟨fun isChat => ndStream_complete_eq_toks ollamaSplitChunk (ollamaLineHandler isChat),
   ndStream_complete_eq_toks openaiSplitChunk openaiLineHandler,
   ndStream_complete_eq_toks groqSplitChunk groqLineHandler,
   ndStream_complete_eq_toks anthropicSplitChunk anthropicLineHandler,
   geminiStreamBody_complete_empty⟩

/-- Witness for C1 at a concrete two-token Ollama chat stream. -/
theorem c1_token_accumulation_witness :
    Ev.complete "Hello" ∈ ollamaStreamRequest true FetchResult.ok
        ["\x7b\"message\":\x7b\"content\":\"Hel\"\x7d\x7d\n",
         "\x7b\"message\":\x7b\"content\":\"lo\"\x7d,\"done\":true\x7d\n"] Ending.eof ∧
      "Hello" = toks (ollamaStreamRequest true FetchResult.ok
        ["\x7b\"message\":\x7b\"content\":\"Hel\"\x7d\x7d\n",
         "\x7b\"message\":\x7b\"content\":\"lo\"\x7d,\"done\":true\x7d\n"] Ending.eof) :=
  ⟨by decide, c1_token_accumulation.1 true FetchResult.ok
    ["\x7b\"message\":\x7b\"content\":\"Hel\"\x7d\x7d\n",
     "\x7b\"message\":\x7b\"content\":\"lo\"\x7d,\"done\":true\x7d\n"] Ending.eof "Hello"
    (by decide)⟩

/-- C2 (code bug): the Ollama/OpenAI-style loops keep no carry-over
buffer, so the record `‹response: Hello›` split across a chunk boundary
parses in neither half and its token is silently lost — the call
completes with no token at all; the Gemini loop, which does keep the
buffer the spec describes, emits the split record's token exactly once
after the remaining bytes arrive. -/
theorem c2_chunk_boundary_record_lost :
    ollamaStreamRequest false FetchResult.ok
        ["\x7b\"respon", "se\":\"Hello\"\x7d\n"] Ending.eof
        = [Ev.complete ""] ∧
      geminiStreamBody true GemFetch.ok
        ["data: \x7b\"candidates\":[\x7b\"content\":\x7b\"parts\":[\x7b\"text\":\"Hello\"",
         "\x7d]\x7d\x7d]\x7d\n"]
        GemEnding.eof = [Ev.token "Hello", Ev.complete ""] :=
  ⟨rfl, rfl⟩

/-- C3 counterexample: the Gemini streaming methods return an
`AbortController` that is never passed to `fetch`, so cancelling the
returned handle cannot abort the underlying network transfer. -/
theorem c3_counterexample_gemini_unwired_controller :
    geminiChatFetchCall.hasSignal = false ∧
      geminiGenerateStreamFetchCall.hasSignal = false :=
  ⟨rfl, rfl⟩

/-- C3 (amended): the Ollama, OpenAI, Groq and Anthropic adapters pass
the returned controller's signal to `fetch`, and on any cancellation
outcome (abort before the response or during the read loop) fire no
`onError` and end with `onComplete` carrying exactly the accumulated
text; the Gemini adapter returns a controller that is not connected to
its request, so cancelling neither aborts the transfer nor changes the
delivered callbacks. -/
theorem c3_cancellation_completes_with_partial :
    (∀ (isChat : Bool) (fr : FetchResult) (reads : List String) (ending : Ending),
      fr = FetchResult.abortedEarly ∨ (fr = FetchResult.ok ∧ ending = Ending.abort) →
      Ev.error ∉ ollamaStreamRequest isChat fr reads ending ∧
        (ollamaStreamRequest isChat fr reads ending).getLast?
          = some (Ev.complete (toks (ollamaStreamRequest isChat fr reads ending)))) ∧
    (∀ (fr : FetchResult) (reads : List String) (ending : Ending),
      fr = FetchResult.abortedEarly ∨ (fr = FetchResult.ok ∧ ending = Ending.abort) →
      Ev.error ∉ openaiStreamChat fr reads ending ∧
        (openaiStreamChat fr reads ending).getLast?
          = some (Ev.complete (toks (openaiStreamChat fr reads ending)))) ∧
    (∀ (fr : FetchResult) (reads : List String) (ending : Ending),
      fr = FetchResult.abortedEarly ∨ (fr = FetchResult.ok ∧ ending = Ending.abort) →
      Ev.error ∉ groqStreamChat fr reads ending ∧
        (groqStreamChat fr reads ending).getLast?
          = some (Ev.complete (toks (groqStreamChat fr reads ending)))) ∧
    (∀ (fr : FetchResult) (reads : List String) (ending : Ending),
      fr = FetchResult.abortedEarly ∨ (fr = FetchResult.ok ∧ ending = Ending.abort) →
      Ev.error ∉ anthropicStreamChat fr reads ending ∧
        (anthropicStreamChat fr reads ending).getLast?
          = some (Ev.complete (toks (anthropicStreamChat fr reads ending)))) ∧
    (ollamaStreamFetchCall.hasSignal = true ∧ openaiStreamFetchCall.hasSignal = true ∧
      groqStreamFetchCall.hasSignal = true ∧ anthropicStreamFetchCall.hasSignal = true ∧
      geminiChatFetchCall.hasSignal = false) :=
  ⟨fun isChat => ndStream_cancelled ollamaSplitChunk (ollamaLineHandler isChat),
   ndStream_cancelled openaiSplitChunk openaiLineHandler,
   ndStream_cancelled groqSplitChunk groqLineHandler,
   ndStream_cancelled anthropicSplitChunk anthropicLineHandler,
   rfl, rfl, rfl, rfl, rfl⟩

/-- Witness for C3: cancelling an Ollama chat stream after the token `Hi`
arrived completes with `Hi` and no error. -/
theorem c3_cancellation_completes_with_partial_witness :
    (FetchResult.ok = FetchResult.abortedEarly ∨
        (FetchResult.ok = FetchResult.ok ∧ Ending.abort = Ending.abort)) ∧
      (Ev.error ∉ ollamaStreamRequest true FetchResult.ok
          ["\x7b\"message\":\x7b\"content\":\"Hi\"\x7d\x7d\n"] Ending.abort ∧
        (ollamaStreamRequest true FetchResult.ok
            ["\x7b\"message\":\x7b\"content\":\"Hi\"\x7d\x7d\n"] Ending.abort).getLast?
          = some (Ev.complete (toks (ollamaStreamRequest true FetchResult.ok
              ["\x7b\"message\":\x7b\"content\":\"Hi\"\x7d\x7d\n"] Ending.abort)))) :=
  ⟨Or.inr ⟨rfl, rfl⟩,
   c3_cancellation_completes_with_partial.1 true FetchResult.ok
     ["\x7b\"message\":\x7b\"content\":\"Hi\"\x7d\x7d\n"] Ending.abort (Or.inr ⟨rfl, rfl⟩)⟩

/-- C5 counterexample: `getModels` returns the empty list on several
reachable inputs — an empty API key for the OpenAI and Groq adapters, a
successful OpenAI response none of whose model ids contains `gpt`, and a
successful Ollama response with an absent `models` field or with zero
models. -/
theorem c5_counterexample_empty_model_lists :
    openaiGetModels "" "gpt-3.5-turbo" ModelsFetch.netError = [] ∧
    groqGetModels "" "llama2-70b-4096" ModelsFetch.httpNotOk = [] ∧
    openaiGetModels "sk-1" "gpt-3.5-turbo"
        (ModelsFetch.ok (some ["davinci-002", "whisper-1"])) = [] ∧
    ollamaGetModels "llama2" (OllamaModelsResult.ok none) = [] ∧
    ollamaGetModels "llama2" (OllamaModelsResult.ok (some [])) = [] :=
  ⟨rfl, rfl, rfl, rfl, rfl⟩

/-- C5 (amended): `getModels` never throws; with a configured key, every
network/HTTP failure (and a response without the expected list field)
yields a non-empty fallback, and the Anthropic and Gemini adapters are
static non-empty lists — but the result can be empty: the OpenAI and
Groq adapters return the empty list whenever the API key is empty, a
successful OpenAI response whose ids contain no `gpt` substring yields
the empty list, and a successful Ollama response with an absent `models`
field or zero models yields the empty list. -/
theorem c5_models_fallback :
    (∀ dm : String, ollamaGetModels dm OllamaModelsResult.failed = [dm]) ∧
    (∀ k dm : String, k ≠ "" →
      openaiGetModels k dm ModelsFetch.netError = [dm] ∧
        openaiGetModels k dm ModelsFetch.httpNotOk = [dm] ∧
        openaiGetModels k dm (ModelsFetch.ok none) = [dm]) ∧
    (∀ k dm : String, k ≠ "" →
      groqGetModels k dm ModelsFetch.netError ≠ [] ∧
        groqGetModels k dm ModelsFetch.httpNotOk = [dm] ∧
        groqGetModels k dm (ModelsFetch.ok none) = [dm]) ∧
    (∀ (dm : String) (net : ModelsFetch), openaiGetModels "" dm net = []) ∧
    (∀ (dm : String) (net : ModelsFetch), groqGetModels "" dm net = []) ∧
    (∀ (k dm : String) (ids : List String),
      (∀ i ∈ ids, isInfixL "gpt".data i.data = false) →
      openaiGetModels k dm (ModelsFetch.ok (some ids)) = []) ∧
    (∀ dm : String, ollamaGetModels dm (OllamaModelsResult.ok none) = [] ∧
      ollamaGetModels dm (OllamaModelsResult.ok (some [])) = []) ∧
    anthropicGetModels ≠ [] ∧ geminiGetModels ≠ [] := by
  refine ⟨fun dm => rfl, ?_, ?_, ?_, ?_, ?_, fun dm => ⟨rfl, rfl⟩, by decide, by decide⟩
  · intro k dm hk
    refine ⟨?_, ?_, ?_⟩ <;> simp [openaiGetModels, hk]
  · intro k dm hk
    refine ⟨?_, ?_, ?_⟩ <;> simp [groqGetModels, hk]
  · intro dm net
    simp [openaiGetModels]
  · intro dm net
    simp [groqGetModels]
  · intro k dm ids h
    by_cases hk : k = ""
    · simp [openaiGetModels, hk]
    · simp only [openaiGetModels, if_neg hk]
      exact List.filter_eq_nil_iff.mpr (fun i hi => by simp [h i hi])

/-- Witness for C5 with a concrete non-empty key. -/
theorem c5_models_fallback_witness :
    ("sk-1" : String) ≠ "" ∧
      (openaiGetModels "sk-1" "gpt-3.5-turbo" ModelsFetch.netError = ["gpt-3.5-turbo"] ∧
        openaiGetModels "sk-1" "gpt-3.5-turbo" ModelsFetch.httpNotOk = ["gpt-3.5-turbo"] ∧
        openaiGetModels "sk-1" "gpt-3.5-turbo" (ModelsFetch.ok none) = ["gpt-3.5-turbo"]) :=
  ⟨by decide, c5_models_fallback.2.1 "sk-1" "gpt-3.5-turbo" (by decide)⟩

/-- C8 counterexample: an explicitly supplied temperature of `0.0` is
replaced by the `0.7` default in the OpenAI request body (`|| 0.7`), and
an explicitly supplied non-zero temperature is dropped outright by the
Anthropic adapter, whose request bodies carry no temperature field. -/
theorem c8_counterexample_zero_replaced_anthropic_dropped :
    openaiRequestTemperature
        (some { temperature := some 0, maxTokens := none, systemPrompt := none })
        = some (7 / 10) ∧
      (7 / 10 : ℚ) ≠ 0 ∧
      anthropicRequestTemperature
        (some { temperature := some (1 / 2), maxTokens := none, systemPrompt := none })
        = none := by
  refine ⟨rfl, by norm_num, rfl⟩

/-- C8 (amended): only the Gemini adapter (`?? 0.7`) treats exactly an
absent temperature as the default and sends an explicit `0.0` unchanged;
the Ollama, OpenAI and Groq adapters (`|| 0.7`) replace both an absent
temperature and an explicit `0.0` by the `0.7` default, sending only
non-zero explicit values unchanged; and the Anthropic adapter sends no
temperature field at all, dropping any explicitly supplied value. -/
theorem c8_temperature_defaulting :
    (∀ t : ℚ, ollamaRequestTemperature
        (some { temperature := some t, maxTokens := none, systemPrompt := none })
        = some (if t = 0 then 7 / 10 else t)) ∧
    (∀ t : ℚ, openaiRequestTemperature
        (some { temperature := some t, maxTokens := none, systemPrompt := none })
        = some (if t = 0 then 7 / 10 else t)) ∧
    (∀ t : ℚ, groqRequestTemperature
        (some { temperature := some t, maxTokens := none, systemPrompt := none })
        = some (if t = 0 then 7 / 10 else t)) ∧
    (∀ t : ℚ, geminiRequestTemperature
        (some { temperature := some t, maxTokens := none, systemPrompt := none })
        = some t) ∧
    (∀ o : Option GenOptions, anthropicRequestTemperature o = none) ∧
    (ollamaRequestTemperature none = some (7 / 10) ∧
      openaiRequestTemperature none = some (7 / 10) ∧
      groqRequestTemperature none = some (7 / 10) ∧
      geminiRequestTemperature none = some (7 / 10)) :=
  ⟨fun _ => rfl, fun _ => rfl, fun _ => rfl, fun _ => rfl, fun _ => rfl,
   rfl, rfl, rfl, rfl⟩
